import Mathlib

/- Verification development for the JHA2AI command interpreter and execution
   sandbox (JHA2AI/backend/jha2_ai.py and JHA2AI/backend/utils.py).

   Python strings are modelled as Lean `String`; POSIX path arithmetic
   (os.path.join / os.path.normpath / os.path.abspath) is embedded as pure
   functions on strings, with the process current working directory passed
   explicitly; the subprocess layer is an oracle `List String → ProcOutcome`
   supplied as an explicit argument to the code that spawns processes. -/

/-- Python default whitespace set, as used by str.strip() and str.split(). -/
def pyIsSpace (c : Char) : Bool :=
  c = ' ' || c = '\t' || c = '\n' || c = '\r' || c = Char.ofNat 11 || c = Char.ofNat 12

/-- Python str.strip(): removes leading and trailing whitespace. -/
def pyStrip (s : String) : String :=
  String.mk (((s.data.dropWhile pyIsSpace).reverse.dropWhile pyIsSpace).reverse)

/-- Removal of trailing whitespace only. The spec phrases the executor output
    normalization as trimming trailing whitespace; this function is the
    spec-side notion, to be compared with `pyStrip` used by the code. -/
def stripTrailing (s : String) : String :=
  String.mk ((s.data.reverse.dropWhile pyIsSpace).reverse)

/-- Python s.startswith(pre). -/
def pyStartswith (s pre : String) : Bool :=
  decide (pre.data <+: s.data)

/-- The suffix after the first occurrence of `needle` in the character list,
    as computed by Python s.split(needle, 1)[1]; `none` when `needle` does
    not occur. -/
def afterFirstAux (needle : List Char) : List Char → Option (List Char)
  | [] => if needle.isPrefixOf ([] : List Char) then some [] else none
  | c :: rest =>
    if needle.isPrefixOf (c :: rest) then some (List.drop needle.length (c :: rest))
    else afterFirstAux needle rest

/-- String version of `afterFirstAux`. -/
def afterFirst (s pat : String) : Option String :=
  (afterFirstAux pat.data s.data).map String.mk

/-- Python substring membership `pat in s`. -/
def pyContains (s pat : String) : Bool :=
  (afterFirst s pat).isSome

/-- Helper for Python str.split() with no separator: splits on runs of
    whitespace, discarding empty pieces. The first argument accumulates the
    current word in reverse. -/
def pySplitWsAux : List Char → List Char → List String
  | cur, [] => if cur.isEmpty then [] else [String.mk cur.reverse]
  | cur, c :: rest =>
    if pyIsSpace c then
      if cur.isEmpty then pySplitWsAux [] rest
      else String.mk cur.reverse :: pySplitWsAux [] rest
    else pySplitWsAux (c :: cur) rest

/-- Python str.split() with no separator. -/
def pySplitWhitespace (s : String) : List String :=
  pySplitWsAux [] s.data

/-- Split a character list on a separator character, keeping empty pieces,
    as Python path.split(sep) does. -/
def splitChar (sep : Char) : List Char → List (List Char)
  | [] => [[]]
  | c :: rest =>
    let r := splitChar sep rest
    if c = sep then [] :: r
    else
      match r with
      | [] => [[c]]
      | h :: t => (c :: h) :: t

/-- Join path components with "/" separators. -/
def joinSlash : List String → String
  | [] => ""
  | [c] => c
  | c :: rest => c ++ "/" ++ joinSlash rest

/-- One step of posixpath.normpath component processing: skip empty and "."
    components; ".." pops the previous component unless the path is relative
    and empty so far, or the previous component is itself "..". -/
def normStep (initialSlashes : Nat) (acc : List String) (comp : String) : List String :=
  if comp = "" ∨ comp = "." then acc
  else if comp ≠ ".." ∨ (initialSlashes = 0 ∧ acc = []) ∨ acc.getLast? = some ".." then
    acc ++ [comp]
  else if acc ≠ [] then acc.dropLast
  else acc

/-- posixpath.normpath embedded for POSIX path strings. -/
def pyNormpath (path : String) : String :=
  if path = "" then "."
  else
    let initialSlashes : Nat :=
      if pyStartswith path "/" then
        if pyStartswith path "//" ∧ ¬ (pyStartswith path "///" = true) then 2 else 1
      else 0
    let comps := (splitChar '/' path.data).map String.mk
    let newComps := comps.foldl (normStep initialSlashes) []
    let joined := joinSlash newComps
    let result :=
      (if initialSlashes = 2 then "//" else if initialSlashes = 1 then "/" else "") ++ joined
    if result = "" then "." else result

/-- Python s.endswith("/"). -/
def pyEndswithSlash (s : String) : Bool :=
  s.data.getLast? == some '/'

/-- posixpath.join restricted to two arguments, as used by the source. -/
def pyJoin (a b : String) : String :=
  if pyStartswith b "/" then b
  else if a = "" ∨ pyEndswithSlash a then a ++ b
  else a ++ "/" ++ b

/-- posixpath.abspath with the process current working directory passed
    explicitly: join with the cwd when relative, then normalize. -/
def pyAbspath (cwd p : String) : String :=
  pyNormpath (pyJoin cwd p)

/-- `secure_path` from JHA2AI/backend/utils.py (the Path Guard).
    base_dir is abspath of the working directory; the requested path is
    abspath of join(base_dir, filename); the result is returned only when its
    string representation starts with base_dir. On rejection the original
    also emits an "error" callback; only the returned value is modelled. -/
def secure_path (filename working_directory cwd : String) : Option String :=
  let base_dir := pyAbspath cwd working_directory
  let requested_path := pyAbspath cwd (pyJoin base_dir filename)
  if pyStartswith requested_path base_dir then some requested_path else none

/-- `p` lies in the directory subtree rooted at `r` (both given as canonical
    absolute paths): either equal to the root or extending it at a path
    component boundary. This is the semantic notion of "inside the root",
    against which the string-prefix test of `secure_path` is measured. -/
def inSubtree (p r : String) : Bool :=
  p == r || pyStartswith p (if r == "/" then "/" else r ++ "/")

/-- `detect_language` from JHA2AI/backend/jha2_ai.py (the Language Detector). -/
def detect_language (code : String) : String :=
  if pyStartswith (pyStrip code) "print" || pyContains code "def" then "python"
  else if pyStartswith (pyStrip code) "console.log" then "javascript"
  else "unknown"

/-- `get_command` from JHA2AI/backend/jha2_ai.py (the Command Synthesizer).
    The unsupported-language branch raises ValueError in the source; raising
    is modelled as `Except.error` carrying str(exception). -/
def get_command (language code : String) : Except String (List String) :=
  if language = "python" then Except.ok ["python", "-c", code]
  else if language = "javascript" then Except.ok ["node", "-e", code]
  else if language = "bash" then Except.ok ["bash", "-c", code]
  else if language = "sql" then Except.ok ["echo", code]
  else Except.error ("Unsupported language \x27" ++ language ++ "\x27.")

/-- Outcome of the subprocess.run call inside `execute_command`: normal
    completion with captured stdout, stderr and return code; expiry of the
    25-second timeout (subprocess.TimeoutExpired); or a spawn-level failure
    raising some other exception with message `msg`. -/
inductive ProcOutcome where
  | completed (stdout stderr : String) (returncode : Int)
  | timedOut
  | spawnError (msg : String)
  deriving DecidableEq

/-- `execute_command` from JHA2AI/backend/jha2_ai.py (the Sandboxed Executor).
    The source raises RuntimeError("Command failed with return code N") on a
    non-zero exit, and its own generic handler catches it and returns
    "Error executing command: " followed by str(exception); the composition is
    embedded directly. stdout and stderr are concatenated (stderr is never
    None under capture_output=True, text=True) and stripped on both ends. -/
def execute_command (outcome : ProcOutcome) : String :=
  match outcome with
  | ProcOutcome.completed out err rc =>
    let combined_output := out ++ err
    if rc ≠ 0 then
      "Error executing command: " ++ ("Command failed with return code " ++ toString rc)
    else if pyStrip combined_output = "" then "No output generated."
    else pyStrip combined_output
  | ProcOutcome.timedOut => "Error: Code execution timed out (25 seconds)."
  | ProcOutcome.spawnError msg => "Error executing command: " ++ msg

/-- The session state fields of the JHA2AI instance that the embedded
    handlers read or write. -/
structure SessState where
  model : String
  persona : String
  available_personas : List (String × String)
  chat_history : List String
  last_code : Option String
  last_language : Option String
  working_directory : String
  preferences : List (String × String)
  deriving DecidableEq

/-- `cmd_run` from JHA2AI/backend/jha2_ai.py. `args` is the Python argument
    (default None); `some ""` is falsy exactly like None in `if args:`, and
    the fallback test `elif self.state["last_code"]:` is likewise a
    truthiness test, so a stored empty string counts as no code.
    The subprocess layer is the oracle `ex`. The callback("command_output", _)
    emission is not modelled; the returned string and the state update are.
    `get_command` raising is caught by the handler's generic except-clause,
    which returns "Error during code execution: " followed by str(exception). -/
def cmd_run (args : Option String) (st : SessState)
    (ex : List String → ProcOutcome) : String × SessState :=
  let fallback : Option (String × Option String) :=
    match st.last_code with
    | some c => if c ≠ "" then some (c, st.last_language) else none
    | none => none
  let chosen : Option (String × Option String) :=
    match args with
    | some s =>
      if s ≠ "" then some (s, some (detect_language s))
      else fallback
    | none => fallback
  match chosen with
  | none => ("No code to run.", st)
  | some (code, language) =>
    match language with
    | none => ("Language not detected. Please specify.", st)
    | some lang =>
      if lang = "" then ("Language not detected. Please specify.", st)
      else
        match get_command lang code with
        | Except.error msg => ("Error during code execution: " ++ msg, st)
        | Except.ok command =>
          (execute_command (ex command),
           { st with last_code := some code, last_language := some lang })

/-- The Python value passed to `cmd_persona` as its argument: a plain string
    when the handler is called directly, or the list of whitespace-split
    tokens that `interpret_natural_language` passes to registry handlers. -/
inductive PyArg where
  | str (s : String)
  | list (xs : List String)
  deriving DecidableEq

/-- `cmd_persona` from JHA2AI/backend/jha2_ai.py. The source tests
    `args in self.state["available_personas"]`: a dict membership test hashes
    the key, so a list argument raises TypeError("unhashable type: 'list'"),
    modelled as `Except.error`. With a string argument, a known name is made
    active and an unknown name is first inserted with prompt text equal to
    itself (dict insertion appends to the association list). The regeneration
    of the system message reads state only; the emitted "message" callbacks
    are returned alongside the new state. -/
def cmd_persona (args : PyArg) (st : SessState) :
    Except String (SessState × List (String × String)) :=
  match args with
  | PyArg.list xs =>
    if xs = [] then Except.ok (st, [("message", "Usage: /persona <persona_name>")])
    else Except.error "unhashable type: \x27list\x27"
  | PyArg.str s =>
    if s = "" then Except.ok (st, [("message", "Usage: /persona <persona_name>")])
    else if (st.available_personas.map Prod.fst).contains s then
      Except.ok ({ st with persona := s }, [("message", "Persona set to " ++ s ++ ".")])
    else
      Except.ok
        ({ st with available_personas := st.available_personas ++ [(s, s)], persona := s },
         [("message", "Persona set to " ++ s ++ ".")])

/-- The fixed extension table of `cmd_edit`, a dict .get with default ".txt". -/
def editExtension (lang : Option String) : String :=
  match lang with
  | some l =>
    if l = "python" then ".py"
    else if l = "javascript" then ".js"
    else if l = "bash" then ".sh"
    else if l = "sql" then ".sql"
    else ".txt"
  | none => ".txt"

/-- A filesystem action performed by `cmd_edit`, recorded as a trace. -/
inductive FsOp where
  | write (path content : String)
  | openEditor (path : String)
  | read (path : String)
  | remove (path : String)
  deriving DecidableEq

/-- `cmd_edit` from JHA2AI/backend/jha2_ai.py, on the non-failing path.
    The guard `if not self.state["last_code"]:` is a truthiness test: both
    None and a stored empty string reply "No code to edit." and perform no
    filesystem operation. Otherwise `editedContent` is what reading the
    temporary file back returns after the operator edits it. The temporary
    file path is the raw relative string "temp_code" plus the language
    extension, used as-is in open/remove, so the operating system resolves it
    against the process ambient current working directory; `secure_path` is
    not involved anywhere in the handler. -/
def cmd_edit (st : SessState) (editedContent : String) :
    SessState × List FsOp × List (String × String) :=
  match st.last_code with
  | none => (st, [], [("message", "No code to edit.")])
  | some code =>
    if code = "" then (st, [], [("message", "No code to edit.")])
    else
    let tempPath := "temp_code" ++ editExtension st.last_language
    ({ st with last_code := some editedContent },
     [FsOp.write tempPath code, FsOp.openEditor tempPath,
      FsOp.read tempPath, FsOp.remove tempPath],
     [("message", "Press Enter in the terminal after editing..."),
      ("message", "Code updated. You can now run it with /run.")])

/-- `extract_code_from_input` from JHA2AI/backend/jha2_ai.py:
    user_input.split("run", 1)[1].strip() when "run" occurs, else "". -/
def extract_code_from_input (user_input : String) : String :=
  match afterFirst user_input "run" with
  | some rest => pyStrip rest
  | none => ""

/-- The keys of the command registry built by create_command_registry. -/
def registryKeys : List String :=
  ["/help", "/reset", "/model", "/persona", "/quit", "/edit", "/run", "/show",
   "/webget", "/webrequest", "/describe_image", "/preferences", "/list"]

/-- Result of one `interpret_natural_language` dispatch: a returned value
    (None or a string) with the state after the call, a propagating Python
    exception, or the invocation of a registry handler not embedded here. -/
inductive InterpOut where
  | ret (returned : Option String) (st : SessState)
  | exn (msg : String) (st : SessState)
  | other (cmd : String) (args : List String) (st : SessState)
  deriving DecidableEq

/-- `interpret_natural_language` from JHA2AI/backend/jha2_ai.py. The "run"
    substring test comes first and routes to `cmd_run` with the extracted
    code string; otherwise a leading "/" selects a registry handler, which
    receives the list of remaining whitespace-split tokens (`cmd_persona` is
    the embedded one; the others are recorded as `InterpOut.other`); anything
    else returns the literal "Command not recognized.". -/
def interpret_natural_language (user_input : String) (st : SessState)
    (ex : List String → ProcOutcome) : InterpOut :=
  if pyContains user_input "run" then
    InterpOut.ret (some (cmd_run (some (extract_code_from_input user_input)) st ex).1)
      (cmd_run (some (extract_code_from_input user_input)) st ex).2
  else if pyStartswith user_input "/" then
    match pySplitWhitespace user_input with
    | [] => InterpOut.exn "not enough values to unpack (expected at least 1, got 0)" st
    | cmd :: args =>
      if cmd = "/persona" then
        match cmd_persona (PyArg.list args) st with
        | Except.ok (st1, _msgs) => InterpOut.ret none st1
        | Except.error m => InterpOut.exn m st
      else if registryKeys.contains cmd then InterpOut.other cmd args st
      else InterpOut.ret (some "Command not recognized.") st
  else InterpOut.ret (some "Command not recognized.") st

/-- A session state as built by the constructor from the default
    configuration, before any code has been run. -/
def st0 : SessState :=
  { model := "mistralai/mistral-7b-instruct"
    persona := "autonomous assistant"
    available_personas := [("autonomous assistant", "You are an advanced AI assistant.")]
    chat_history := []
    last_code := none
    last_language := none
    working_directory := "./jha2_workspace"
    preferences := [("preferred_language", "python"), ("confirm_destructive", "True")] }

/-- A session state in which code was previously run. -/
def stEdit : SessState :=
  { st0 with last_code := some "print(1)", last_language := some "python" }

/-- A concrete subprocess oracle for closed evaluations that never reach it. -/
def exec0 : List String → ProcOutcome := fun _ => ProcOutcome.timedOut

/- ------------------------------------------------------------------ -/
/- Theorems                                                           -/
/- ------------------------------------------------------------------ -/

/-- If a string starts with the root extended by a separator, it starts with
    the root itself; together with equality to the root this lets the
    subtree relation discharge the string-prefix test of `secure_path`. -/
theorem startswith_of_inSubtree (p r : String) (h : inSubtree p r = true) :
    pyStartswith p r = true := by
  unfold inSubtree at h
  rw [Bool.or_eq_true] at h
  rcases h with h | h
  · have hpr : p = r := by simpa using h
    subst hpr
    unfold pyStartswith
    simp
  · by_cases hr : (r == "/") = true
    · have hr2 : r = "/" := by simpa using hr
      rw [if_pos hr] at h
      rw [hr2]
      exact h
    · rw [if_neg hr] at h
      unfold pyStartswith at h ⊢
      rw [decide_eq_true_eq] at h ⊢
      have h1 : r.data <+: (r ++ "/").data := by
        rw [String.data_append]
        exact List.prefix_append r.data "/".data
      exact h1.trans h

/-- Claim C1 (counterexample): with root "/a/b", the filename "../bad"
    canonically resolves to "/a/bad", which lies outside the root subtree,
    yet `secure_path` accepts it and returns that outside path, because
    "/a/bad" begins with the string "/a/b". The claim as stated — rejection
    of every filename resolving outside the root — is therefore false. -/
theorem secure_path_escape_counterexample :
    secure_path "../bad" "/a/b" "/" = some "/a/bad"
    ∧ inSubtree "/a/bad" "/a/b" = false := by decide

/-- Claim C1 (amended): the Path Guard rejects (returns None, no exception)
    exactly those filenames whose canonical resolution does not begin, as a
    string, with the canonical root; every returned path is the canonical
    resolution and begins with the canonical root string. In particular all
    `..` escapes and absolute overrides whose resolution does not share the
    root's string prefix are rejected, but an outside path whose string
    merely extends the root's name (a sibling such as "/a/bad" under root
    "/a/b") is accepted, and the empty filename resolves to the root itself
    and is accepted. -/
theorem secure_path_prefix_spec (filename wd cwd : String) :
    (pyStartswith (pyAbspath cwd (pyJoin (pyAbspath cwd wd) filename)) (pyAbspath cwd wd)
        = false → secure_path filename wd cwd = none)
    ∧ ∀ p, secure_path filename wd cwd = some p →
        p = pyAbspath cwd (pyJoin (pyAbspath cwd wd) filename)
        ∧ pyStartswith p (pyAbspath cwd wd) = true := by
  constructor
  · intro h
    unfold secure_path
    simp [h]
  · intro p hp
    unfold secure_path at hp
    by_cases h : pyStartswith (pyAbspath cwd (pyJoin (pyAbspath cwd wd) filename))
        (pyAbspath cwd wd) = true
    · simp only [h, if_true] at hp
      have hpe : pyAbspath cwd (pyJoin (pyAbspath cwd wd) filename) = p :=
        Option.some.inj hp
      exact ⟨hpe.symm, hpe ▸ h⟩
    · simp only [Bool.not_eq_true] at h
      simp [h] at hp

/-- Witness for the amended Claim C1 at a concrete escaping input: the
    classic "../../etc/passwd" traversal resolves to "/etc/passwd", whose
    string does not begin with "/a/b", so the guard returns None. -/
theorem secure_path_prefix_spec_witness :
    secure_path "../../etc/passwd" "/a/b" "/" = none := by
  exact (secure_path_prefix_spec "../../etc/passwd" "/a/b" "/").1 (by decide)

/-- Claim C8: for every filename whose canonical resolution lies inside the
    root subtree, the Path Guard accepts and returns exactly the normalized
    join of root and filename; moreover it accepts precisely when the
    canonical result's string representation starts with the canonical
    root's string representation. -/
theorem secure_path_accepts_inside (filename wd cwd : String) :
    (inSubtree (pyAbspath cwd (pyJoin (pyAbspath cwd wd) filename)) (pyAbspath cwd wd)
        = true →
      secure_path filename wd cwd
        = some (pyAbspath cwd (pyJoin (pyAbspath cwd wd) filename)))
    ∧ (secure_path filename wd cwd).isSome
        = pyStartswith (pyAbspath cwd (pyJoin (pyAbspath cwd wd) filename))
            (pyAbspath cwd wd) := by
  constructor
  · intro h
    have hs := startswith_of_inSubtree _ _ h
    unfold secure_path
    simp [hs]
  · unfold secure_path
    cases hb : pyStartswith (pyAbspath cwd (pyJoin (pyAbspath cwd wd) filename))
        (pyAbspath cwd wd) <;> simp [hb]

/-- Witness for Claim C8 at a concrete inside input. -/
theorem secure_path_accepts_inside_witness :
    secure_path "notes.txt" "/a/b" "/" = some "/a/b/notes.txt" := by
  have H := (secure_path_accepts_inside "notes.txt" "/a/b" "/").1 (by decide)
  rw [H]
  decide

/-- Claim C5: the Language Detector implements exactly the order-sensitive
    heuristic: python when the trimmed code starts with "print" or the code
    contains "def"; else javascript when the trimmed code starts with
    "console.log"; else the "unknown" tag — including the concrete examples
    pinned by the spec. It is a total function of the code string. -/
theorem detect_language_spec (code : String) :
    ((pyStartswith (pyStrip code) "print" = true ∨ pyContains code "def" = true) →
      detect_language code = "python")
    ∧ (pyStartswith (pyStrip code) "print" = false → pyContains code "def" = false →
        pyStartswith (pyStrip code) "console.log" = true →
        detect_language code = "javascript")
    ∧ (pyStartswith (pyStrip code) "print" = false → pyContains code "def" = false →
        pyStartswith (pyStrip code) "console.log" = false →
        detect_language code = "unknown")
    ∧ detect_language "print(1)" = "python"
    ∧ detect_language "console.log(1)" = "javascript"
    ∧ detect_language "SELECT 1" = "unknown" := by
  refine ⟨?_, ?_, ?_, by decide, by decide, by decide⟩
  · intro h
    unfold detect_language
    rcases h with h | h <;> simp [h]
  · intro hp hd hc
    unfold detect_language
    simp [hp, hd, hc]
  · intro hp hd hc
    unfold detect_language
    simp [hp, hd, hc]

/-- Witness for Claim C5: a fragment classified as python through the
    "def"-containment clause. -/
theorem detect_language_spec_witness :
    detect_language "x = 1\ndef f(x):\n  return x" = "python" := by
  exact (detect_language_spec "x = 1\ndef f(x):\n  return x").1 (Or.inr (by decide))

/-- Claim C7: the Command Synthesizer is a pure function over the fixed
    four-entry table — python to an inline interpreter invocation, javascript
    to an inline node invocation, bash to an inline shell invocation, sql to
    an echo stub — and every language outside the table yields the
    UnsupportedLanguage error, never a fallback argument vector. -/
theorem get_command_table (code : String) :
    get_command "python" code = Except.ok ["python", "-c", code]
    ∧ get_command "javascript" code = Except.ok ["node", "-e", code]
    ∧ get_command "bash" code = Except.ok ["bash", "-c", code]
    ∧ get_command "sql" code = Except.ok ["echo", code]
    ∧ ∀ language, language ∉ (["python", "javascript", "bash", "sql"] : List String) →
        get_command language code
          = Except.error ("Unsupported language \x27" ++ language ++ "\x27.") := by
  refine ⟨rfl, rfl, rfl, rfl, ?_⟩
  intro language h
  simp only [List.mem_cons, List.not_mem_nil, or_false, not_or] at h
  obtain ⟨h1, h2, h3, h4⟩ := h
  unfold get_command
  simp [h1, h2, h3, h4]

/-- Witness for Claim C7 at an unlisted language. -/
theorem get_command_table_witness :
    get_command "ruby" "x" = Except.error ("Unsupported language \x27" ++ "ruby" ++ "\x27.") := by
  exact (get_command_table "x").2.2.2.2 "ruby" (by decide)

/-- Claim C3 (counterexample): a child exiting with return code 1 does not
    yield the bare text "Command failed with return code 1"; the RuntimeError
    raised for the non-zero exit is caught by the generic handler, so the
    actual result carries the "Error executing command: " prefix. -/
theorem execute_command_nonzero_counterexample :
    execute_command (ProcOutcome.completed "" "" 1) ≠ "Command failed with return code 1"
    ∧ execute_command (ProcOutcome.completed "" "" 1)
        = "Error executing command: Command failed with return code 1" := by decide

/-- Claim C3 (amended): the Sandboxed Executor always returns a string and
    never propagates an exception (it is total on all modelled outcomes); a
    child exiting with non-zero code N yields the textual result
    "Error executing command: Command failed with return code N" — the
    failure text with the generic error prefix, not a structured error;
    timeout expiry yields the literal timeout message; a spawn-level failure
    yields "Error executing command: " followed by the exception text. -/
theorem execute_command_failure_modes (out err msg : String) (rc : Int) :
    (rc ≠ 0 → execute_command (ProcOutcome.completed out err rc)
      = "Error executing command: " ++ ("Command failed with return code " ++ toString rc))
    ∧ execute_command ProcOutcome.timedOut = "Error: Code execution timed out (25 seconds)."
    ∧ execute_command (ProcOutcome.spawnError msg) = "Error executing command: " ++ msg := by
  refine ⟨?_, rfl, rfl⟩
  intro h
  unfold execute_command
  simp [h]

/-- Witness for the amended Claim C3 at return code 7. -/
theorem execute_command_failure_modes_witness :
    execute_command (ProcOutcome.completed "ok" "" 7)
      = "Error executing command: " ++ ("Command failed with return code " ++ toString (7 : Int)) := by
  exact (execute_command_failure_modes "ok" "" "m" 7).1 (by decide)

/-- Claim C6 (counterexample): on a zero exit with stdout " hi" and empty
    stderr the executor returns "hi" — Python str.strip() removes leading
    whitespace too — so the result is not the concatenation with only
    trailing whitespace trimmed, which would keep the leading space. -/
theorem execute_command_strip_counterexample :
    execute_command (ProcOutcome.completed " hi" "" 0) ≠ stripTrailing (" hi" ++ "")
    ∧ execute_command (ProcOutcome.completed " hi" "" 0) = "hi"
    ∧ stripTrailing (" hi" ++ "") = " hi" := by decide

/-- Claim C6 (amended): for a child exiting with code 0 the result is the
    concatenation of captured stdout followed by stderr with leading and
    trailing whitespace trimmed (Python str.strip()), and when that trimmed
    concatenation is empty the result is exactly "No output generated.". -/
theorem execute_command_success_output (out err : String) :
    (pyStrip (out ++ err) = "" →
      execute_command (ProcOutcome.completed out err 0) = "No output generated.")
    ∧ (pyStrip (out ++ err) ≠ "" →
      execute_command (ProcOutcome.completed out err 0) = pyStrip (out ++ err)) := by
  constructor <;> intro h <;> unfold execute_command <;> simp [h]

/-- Witness for the amended Claim C6: empty output yields the placeholder. -/
theorem execute_command_success_output_witness :
    execute_command (ProcOutcome.completed "" "" 0) = "No output generated." := by
  exact (execute_command_success_output "" "").1 (by decide)

/-- Claim C2 (code evaluation at the failing input): a /run invocation whose
    code argument is classified "unknown" does not return
    "Language not detected. Please specify." — the source guards with
    `if not language:` but the detector's "unknown" is a non-empty, truthy
    string, so control reaches the Command Synthesizer, whose ValueError is
    caught and reported as an unsupported-language execution error. The
    no-argument, no-lastCode branch does return "No code to run.". -/
theorem cmd_run_unknown_detection_eval :
    interpret_natural_language "/run SELECT 1" st0 exec0
      = InterpOut.ret (some "Error during code execution: Unsupported language \x27unknown\x27.") st0
    ∧ (cmd_run (some "SELECT 1") st0 exec0).1
      = "Error during code execution: Unsupported language \x27unknown\x27."
    ∧ (cmd_run none st0 exec0).1 = "No code to run."
    ∧ detect_language "SELECT 1" = "unknown" := by decide

/-- Claim C4 (code evaluation at the failing input): dispatching
    "/persona alice" hands the handler the token list ["alice"], and the
    dict membership test `args in available_personas` hashes that list and
    raises TypeError("unhashable type: list"), so no persona is inserted and
    the exception propagates out of the dispatcher with the state unchanged.
    Called directly with the string "alice" — the intended argument shape —
    the handler does insert the self-named persona, makes it active, and a
    second identical call is idempotent. -/
theorem persona_dispatch_type_error :
    interpret_natural_language "/persona alice" st0 exec0
      = InterpOut.exn "unhashable type: \x27list\x27" st0
    ∧ cmd_persona (PyArg.list ["alice"]) st0 = Except.error "unhashable type: \x27list\x27"
    ∧ cmd_persona (PyArg.str "alice") st0
      = Except.ok
          ({ st0 with
              available_personas := st0.available_personas ++ [("alice", "alice")],
              persona := "alice" },
           [("message", "Persona set to alice.")])
    ∧ cmd_persona (PyArg.str "alice")
        { st0 with
            available_personas := st0.available_personas ++ [("alice", "alice")],
            persona := "alice" }
      = Except.ok
          ({ st0 with
              available_personas := st0.available_personas ++ [("alice", "alice")],
              persona := "alice" },
           [("message", "Persona set to alice.")]) := by
  exact ⟨by decide, rfl, rfl, rfl⟩

/-- The extension table of `cmd_edit` only produces one of five values. -/
theorem editExtension_cases (l : Option String) :
    editExtension l = ".py" ∨ editExtension l = ".js" ∨ editExtension l = ".sh"
    ∨ editExtension l = ".sql" ∨ editExtension l = ".txt" := by
  cases l with
  | none => simp [editExtension]
  | some s =>
    unfold editExtension
    by_cases h1 : s = "python"
    · simp [h1]
    · by_cases h2 : s = "javascript"
      · simp [h1, h2]
      · by_cases h3 : s = "bash"
        · simp [h1, h2, h3]
        · by_cases h4 : s = "sql"
          · simp [h1, h2, h3, h4]
          · simp [h1, h2, h3, h4]

/-- The temporary file name of `cmd_edit` is a bare relative filename: it
    neither starts with "/" nor contains a "/" anywhere, for every possible
    language value. -/
theorem tempPath_bare (l : Option String) :
    pyStartswith ("temp_code" ++ editExtension l) "/" = false
    ∧ ("temp_code" ++ editExtension l).data.contains '/' = false := by
  rcases editExtension_cases l with h | h | h | h | h <;> rw [h] <;> exact (by decide)

/-- Claim C9: with lastCode present (a truthy, that is non-empty, stored
    string — None and "" both fail the source's `if not` guard and reply
    "No code to edit." with no filesystem operation), /edit creates,
    rewrites lastCode from, and deletes the single file "temp_code" plus the
    language-derived extension — a bare relative name (no "/" at all), which
    the operating system resolves against the process ambient current
    working directory, not against the session workingDirectory, and which
    never passes through the Path Guard — and the only session-state field
    it modifies is lastCode, which becomes the edited content. -/
theorem cmd_edit_frame (st : SessState) (edited code : String)
    (h : st.last_code = some code) (hne : code ≠ "") :
    (cmd_edit st edited).2.1
      = [FsOp.write ("temp_code" ++ editExtension st.last_language) code,
         FsOp.openEditor ("temp_code" ++ editExtension st.last_language),
         FsOp.read ("temp_code" ++ editExtension st.last_language),
         FsOp.remove ("temp_code" ++ editExtension st.last_language)]
    ∧ (cmd_edit st edited).1 = { st with last_code := some edited }
    ∧ pyStartswith ("temp_code" ++ editExtension st.last_language) "/" = false
    ∧ ("temp_code" ++ editExtension st.last_language).data.contains '/' = false
    ∧ (cmd_edit st edited).1.model = st.model
    ∧ (cmd_edit st edited).1.persona = st.persona
    ∧ (cmd_edit st edited).1.available_personas = st.available_personas
    ∧ (cmd_edit st edited).1.chat_history = st.chat_history
    ∧ (cmd_edit st edited).1.last_language = st.last_language
    ∧ (cmd_edit st edited).1.working_directory = st.working_directory
    ∧ (cmd_edit st edited).1.preferences = st.preferences := by
  obtain ⟨hb1, hb2⟩ := tempPath_bare st.last_language
  unfold cmd_edit
  rw [h]
  dsimp only
  rw [if_neg hne]
  exact ⟨rfl, rfl, hb1, hb2, rfl, rfl, rfl, rfl, rfl, rfl, rfl⟩

/-- Witness for Claim C9 at a concrete session that last ran python code. -/
theorem cmd_edit_frame_witness :
    (cmd_edit stEdit "print(2)").1 = { stEdit with last_code := some "print(2)" }
    ∧ (cmd_edit stEdit "print(2)").2.1
      = [FsOp.write "temp_code.py" "print(1)", FsOp.openEditor "temp_code.py",
         FsOp.read "temp_code.py", FsOp.remove "temp_code.py"] := by
  have H := cmd_edit_frame stEdit "print(2)" "print(1)" rfl (by decide)
  exact ⟨H.2.1, H.1⟩

/-- Claim C10: any input in which "run" occurs followed only by whitespace
    (or nothing) after its first occurrence is routed by the dispatcher to
    the run pipeline with an empty code argument: with no stored lastCode the
    reply is exactly "No code to run.", and otherwise lastCode/lastLanguage
    are silently re-executed — so an ordinary chat message ending in the word
    "run" re-runs the previously executed code. -/
theorem run_substring_dispatch (input : String) (st : SessState)
    (ex : List String → ProcOutcome)
    (h1 : pyContains input "run" = true)
    (h2 : pyStrip ((afterFirst input "run").getD "") = "") :
    interpret_natural_language input st ex
      = InterpOut.ret (some (cmd_run (some "") st ex).1) (cmd_run (some "") st ex).2
    ∧ (st.last_code = none →
        interpret_natural_language input st ex = InterpOut.ret (some "No code to run.") st) := by
  have hext : extract_code_from_input input = "" := by
    unfold extract_code_from_input
    unfold pyContains at h1
    cases haf : afterFirst input "run" with
    | none => rfl
    | some r =>
      rw [haf] at h2
      simp only [Option.getD_some] at h2
      exact h2
  have hmain : interpret_natural_language input st ex
      = InterpOut.ret (some (cmd_run (some "") st ex).1) (cmd_run (some "") st ex).2 := by
    unfold interpret_natural_language
    simp [h1, hext]
  refine ⟨hmain, ?_⟩
  intro hlc
  rw [hmain]
  have hcr : cmd_run (some "") st ex = ("No code to run.", st) := by
    unfold cmd_run
    simp [hlc]
  rw [hcr]

/-- Witness for Claim C10: the chat message "please run" with no stored
    lastCode replies exactly "No code to run." and leaves the state alone. -/
theorem run_substring_dispatch_witness :
    interpret_natural_language "please run" st0 exec0
      = InterpOut.ret (some "No code to run.") st0 := by
  exact (run_substring_dispatch "please run" st0 exec0 (by decide) (by decide)).2 rfl
